import Mathlib

/-!
Shallow embedding of the repository's single source file
src/coimbatore_aqi_compare.py, and proofs of the frozen claims about it.

Modelling conventions:
* Text is a list of characters; numeric values are exact rationals.  Every
  numeric value the program actually manipulates is a decimal literal captured
  from text (or an integer), so the rational model is exact.
* Python's re module is embedded as a small backtracking matcher over the
  regex fragment the program uses: character classes, bounded and unbounded
  greedy repetition of a class, concatenation, alternation (leftmost branch
  preferred), and one capturing group.  The search function scans start
  positions left to right and, at the first position admitting a match,
  returns the backtracking-preferred one, exactly like re.search.
  re.IGNORECASE is embedded by lower-casing both sides inside literal
  character classes.
* Python's float() and int() builtins are modelled on the decimal-literal
  fragment (optional sign, digits, optional fractional part).  Spellings such
  as exponents, inf/nan literals or underscores are treated as
  non-convertible; no pattern of this program can capture those spellings.
  pyFloat keeps convertible values exact as rationals; pyFloatSat refines it
  with the overflow behaviour of CPython float(), which saturates digit
  strings at or beyond the IEEE double range to a non-finite infinity
  instead of raising.
* Fallible code returns Option (absent = Python None) or Except (error =
  uncaught Python exception).  File state is Option (list of rows): none
  models a path where no file exists yet.
-/

set_option maxRecDepth 8000

namespace AqiCompare

attribute [local semireducible] Rat.add Rat.mul Rat.inv Rat.sub

/-- One backtracking alternative produced while matching a regex at a fixed
position: the consumed characters, the remaining input, and the content of
capturing group 1 if it participated. -/
structure MRes where
  consumed : List Char
  rest : List Char
  grp1 : Option (List Char)

/-- The regex fragment used by coimbatore_aqi_compare.py: character classes,
greedy repetition of a class between lo and hi times (hi = none means
unbounded), concatenation, alternation and a capturing group.  The patterns
in the source use repetition only on single-character classes, so general
starred subexpressions are not needed and the matcher stays structurally
recursive. -/
inductive Regex where
  | eps
  | cls (p : Char → Bool)
  | repCls (p : Char → Bool) (lo : Nat) (hi : Option Nat)
  | cat (a b : Regex)
  | alt (a b : Regex)
  | grp (a : Regex)

/-- All backtracking alternatives of matching `r` at the start of `s`, in
Python's preference order: alternation tries the left branch first and
repetition is greedy (longest first).  In `cat`, alternatives of the left
subexpression dominate, as with backtracking. -/
def mrun : Regex → List Char → List MRes
  | .eps, s => [⟨[], s, none⟩]
  | .cls _, [] => []
  | .cls p, c :: s => if p c then [⟨[c], s, none⟩] else []
  | .repCls p lo hi, s =>
      let run := s.takeWhile p
      let m := match hi with
        | none => run.length
        | some h => min run.length h
      (List.range (m + 1 - lo)).map (fun i => ⟨run.take (m - i), s.drop (m - i), none⟩)
  | .cat a b, s =>
      (mrun a s).flatMap (fun r1 =>
        (mrun b r1.rest).map (fun r2 =>
          ⟨r1.consumed ++ r2.consumed, r2.rest, r2.grp1 <|> r1.grp1⟩))
  | .alt a b, s => mrun a s ++ mrun b s
  | .grp a, s => (mrun a s).map (fun r => ⟨r.consumed, r.rest, some r.consumed⟩)

/-- A successful re.search result: group 0 (the whole matched span) and
group 1 (the capture, when it participated). -/
structure Match where
  grp0 : List Char
  grp1 : Option (List Char)
deriving DecidableEq

/-- Model of re.search: try each start position from the left; at the first
position where the pattern matches, return the backtracking-preferred
alternative. -/
def search (r : Regex) : List Char → Option Match
  | [] =>
      match mrun r [] with
      | res :: _ => some ⟨res.consumed, res.grp1⟩
      | [] => none
  | c :: t =>
      match mrun r (c :: t) with
      | res :: _ => some ⟨res.consumed, res.grp1⟩
      | [] => search r t

/-- Numeric value of a list of decimal digit characters. -/
def digitsVal (ds : List Char) : Nat :=
  ds.foldl (fun a c => 10 * a + (c.toNat - 48)) 0

/-- Unsigned part of the model of Python's float() builtin: digits with an
optional dot-separated fractional part ("45", "45.2", "45.", ".5").
Anything else is non-convertible. -/
def pyFloatCore (s : List Char) : Option ℚ :=
  match s.dropWhile Char.isDigit with
  | [] =>
      if s.takeWhile Char.isDigit = [] then none
      else some ((digitsVal (s.takeWhile Char.isDigit) : ℚ))
  | c :: frac =>
      if c = '.' ∧ (∀ x ∈ frac, x.isDigit = true) ∧
          ¬(s.takeWhile Char.isDigit = [] ∧ frac = []) then
        some ((digitsVal (s.takeWhile Char.isDigit) : ℚ) +
          (digitsVal frac : ℚ) / (10 : ℚ) ^ frac.length)
      else none

/-- Model of Python's float() builtin on the decimal-literal fragment:
optional sign, then digits with an optional fractional part, kept exact as
a rational.  Returns none where Python float() raises (and on the exotic
spellings listed in the header comment, which no pattern of this program
can capture).  The overflow of huge digit strings to a non-finite infinity
is modelled by the pyFloatSat refinement below. -/
def pyFloat (s : List Char) : Option ℚ :=
  match s with
  | [] => none
  | c :: u =>
      if c = '+' then pyFloatCore u
      else if c = '-' then (pyFloatCore u).map Neg.neg
      else pyFloatCore (c :: u)

/-- float(m.group(1)) where the group may not have participated
(Python would raise TypeError on None, i.e. be non-convertible). -/
def pyFloatOpt : Option (List Char) → Option ℚ
  | none => none
  | some s => pyFloat s

/-- Unsigned part of the model of Python's int() builtin: a nonempty digit
string. -/
def pyIntCore (s : List Char) : Option ℤ :=
  if s ≠ [] ∧ (∀ x ∈ s, x.isDigit = true) then some ((digitsVal s : ℤ)) else none

/-- Model of Python's int() builtin on the decimal fragment: optional sign
and digits. -/
def pyInt (s : List Char) : Option ℤ :=
  match s with
  | [] => none
  | c :: u =>
      if c = '+' then pyIntCore u
      else if c = '-' then (pyIntCore u).map Neg.neg
      else pyIntCore (c :: u)

/-! ### The concrete patterns of the source file -/

/-- A character matched under re.IGNORECASE: both sides are lower-cased. -/
def chrCI (c : Char) : Regex := .cls (fun x => x.toLower == c.toLower)

/-- A character matched exactly. -/
def chrE (c : Char) : Regex := .cls (fun x => x == c)

/-- A literal string under re.IGNORECASE. -/
def litCI (s : String) : Regex := s.data.foldr (fun c r => .cat (chrCI c) r) .eps

/-- Concatenation of a list of regexes. -/
def seq (l : List Regex) : Regex := l.foldr .cat .eps

/-- Greedy optional subexpression (regex ?; the present branch is
preferred). -/
def optR (r : Regex) : Regex := .alt r .eps

/-- Python regex whitespace, on the character repertoire these pages use:
ASCII whitespace plus the no-break space.  (Python's str-pattern backslash-s
covers all Unicode whitespace; only these occur here.) -/
def wsChar (c : Char) : Bool :=
  c == ' ' || c == '\t' || c == '\n' || c == '\r' || c == '\x0b' || c == '\x0c' || c == '\u00A0'

/-- The backslash-s-star fragment of the patterns. -/
def wsStar : Regex := .repCls wsChar 0 none

/-- The bracketed colon / no-break-space optional separator of the pollutant
patterns. -/
def colonNbspOpt : Regex := .repCls (fun c => c == ':' || c == '\u00A0') 0 (some 1)

/-- The shared numeric body [0-9]+(?:.[0-9]+)? of every capture. -/
def numBody : Regex :=
  .cat (.repCls Char.isDigit 1 none)
    (.alt (.cat (chrE '.') (.repCls Char.isDigit 1 none)) .eps)

/-- The captured numeric group of the pollutant patterns. -/
def numGrp : Regex := .grp numBody

/-- The fallback pattern of extract_first_number (source line 44): a bare
captured number searched inside the matched span. -/
def fallbackRe : Regex := .grp numBody

/-- One- to three-digit captured integer, as in the AQI patterns. -/
def digits13Grp : Regex := .grp (.repCls Char.isDigit 1 (some 3))

/-- PATTERNS["pm25"][0] (source line 23). -/
def pat_pm25_1 : Regex :=
  seq [litCI "PM", wsStar, chrCI '2', optR (chrE '.'), chrCI '5', wsStar, colonNbspOpt, wsStar, numGrp]

/-- PATTERNS["pm25"][1] (source line 23). -/
def pat_pm25_2 : Regex := seq [litCI "PM25", wsStar, colonNbspOpt, wsStar, numGrp]

/-- PATTERNS["pm10"][0] (source line 24). -/
def pat_pm10_1 : Regex := seq [litCI "PM", wsStar, litCI "10", wsStar, colonNbspOpt, wsStar, numGrp]

/-- PATTERNS["pm10"][1] (source line 24). -/
def pat_pm10_2 : Regex := seq [litCI "PM10", wsStar, colonNbspOpt, wsStar, numGrp]

/-- PATTERNS["co"][0] (source line 25). -/
def pat_co_1 : Regex := seq [litCI "CO", wsStar, colonNbspOpt, wsStar, numGrp]

/-- PATTERNS["so2"][0] (source line 26). -/
def pat_so2_1 : Regex := seq [litCI "SO2", wsStar, colonNbspOpt, wsStar, numGrp]

/-- PATTERNS["so2"][1] (source line 26). -/
def pat_so2_2 : Regex := seq [litCI "SO", wsStar, chrCI '2', wsStar, colonNbspOpt, wsStar, numGrp]

/-- PATTERNS["no2"][0] (source line 27). -/
def pat_no2_1 : Regex := seq [litCI "NO2", wsStar, colonNbspOpt, wsStar, numGrp]

/-- PATTERNS["no2"][1] (source line 27). -/
def pat_no2_2 : Regex := seq [litCI "NO", wsStar, chrCI '2', wsStar, colonNbspOpt, wsStar, numGrp]

/-- PATTERNS["o3"][0] (source line 28). -/
def pat_o3_1 : Regex := seq [litCI "O3", wsStar, colonNbspOpt, wsStar, numGrp]

/-- PATTERNS["o3"][1] (source line 28). -/
def pat_o3_2 : Regex := seq [litCI "Ozone", wsStar, colonNbspOpt, wsStar, numGrp]

/-- The PATTERNS table (source lines 22 to 29), one ordered candidate list
per pollutant field. -/
def PATTERNS_pm25 : List Regex := [pat_pm25_1, pat_pm25_2]

def PATTERNS_pm10 : List Regex := [pat_pm10_1, pat_pm10_2]

def PATTERNS_co : List Regex := [pat_co_1]

def PATTERNS_so2 : List Regex := [pat_so2_1, pat_so2_2]

def PATTERNS_no2 : List Regex := [pat_no2_1, pat_no2_2]

def PATTERNS_o3 : List Regex := [pat_o3_1, pat_o3_2]

/-- The IQAir index pattern (source line 55). -/
def iqairAqiRe : Regex :=
  seq [digits13Grp, wsStar,
    .alt (seq [litCI "US", wsStar, litCI "AQI"])
      (.alt (litCI "Air quality index") (litCI "AQI"))]

/-- First AQI.in index pattern (source line 77). -/
def aqiinAqiRe1 : Regex :=
  seq [litCI "Live", wsStar, litCI "AQI",
    .repCls (fun c => wsChar c || c == ':') 0 none, digits13Grp]

/-- Second AQI.in index pattern (source line 78). -/
def aqiinAqiRe2 : Regex :=
  seq [digits13Grp, wsStar, chrE '(', litCI "AQI",
    .repCls (fun c => c == '-' || c == ' ') 0 (some 1), litCI "US", chrE ')']

/-- Third AQI.in index pattern (source line 79). -/
def aqiinAqiRe3 : Regex :=
  seq [digits13Grp, wsStar,
    .alt (litCI "AQI") (.alt (litCI "AQI-US") (litCI "AQI (US)"))]

/-! ### extract_first_number (source lines 36 to 47) -/

/-- The value produced from one successful match inside extract_first_number:
float(m.group(1)) if it converts, otherwise the value of the looser re-scan
of the whole matched span (source lines 40 to 46).  none means the loop
moves on to the next pattern. -/
def extract1 (m : Match) : Option ℚ :=
  match pyFloatOpt m.grp1 with
  | some v => some v
  | none =>
      match search fallbackRe m.grp0 with
      | some mm => pyFloatOpt mm.grp1
      | none => none

/-- extract_first_number (source lines 36 to 47), with exceptions collapsed
to Option; the theorem about claim C3 proves from extract_first_numberE that
no exception can actually escape, so the two agree. -/
def extract_first_number (txt : List Char) : List Regex → Option ℚ
  | [] => none
  | p :: ps =>
      match search p txt with
      | none => extract_first_number txt ps
      | some m =>
          match extract1 m with
          | some v => some v
          | none => extract_first_number txt ps

/-- Literal embedding of extract_first_number including its one unguarded
exception point: the float(mm.group(1)) inside the except-block (source
line 46) is not itself guarded, so a non-convertible re-scan capture would
propagate as an exception (error case). -/
def extract_first_numberE (txt : List Char) : List Regex → Except Unit (Option ℚ)
  | [] => .ok none
  | p :: ps =>
      match search p txt with
      | none => extract_first_numberE txt ps
      | some m =>
          match pyFloatOpt m.grp1 with
          | some v => .ok (some v)
          | none =>
              match search fallbackRe m.grp0 with
              | some mm =>
                  match pyFloatOpt mm.grp1 with
                  | some v => .ok (some v)
                  | none => .error ()
              | none => extract_first_numberE txt ps

/-- A CPython float value as observable through this program: a finite
value (kept exact as a rational) or one of the two infinities.  float() of
a decimal digit string never raises; a value at or beyond the IEEE double
overflow threshold converts to a non-finite infinity. -/
inductive PyFloatVal where
  | fin (q : ℚ)
  | inf
  | ninf
deriving DecidableEq

/-- The exact overflow threshold of round-to-nearest string-to-double
conversion: decimal values at or above 2 ^ 1024 - 2 ^ 970 (the midpoint
above the largest finite double) convert to inf. -/
def dblOverflow : ℚ := ((2 ^ 1024 - 2 ^ 970 : ℕ) : ℚ)

/-- Saturation of an exact decimal value to a CPython float: values beyond
the double range become infinities; finite values are kept exact (rounding
to the nearest double is not modelled — it never changes finiteness). -/
def satDouble (q : ℚ) : PyFloatVal :=
  if dblOverflow ≤ q then .inf
  else if q ≤ -dblOverflow then .ninf
  else .fin q

/-- Python float() with its overflow saturation: the refinement of pyFloat
used to settle the finiteness part of claim C3. -/
def pyFloatSat (s : List Char) : Option PyFloatVal := (pyFloat s).map satDouble

/-- float(m.group(1)) under the saturating float model. -/
def pyFloatSatOpt : Option (List Char) → Option PyFloatVal
  | none => none
  | some s => pyFloatSat s

/-- extract1 under the saturating float model. -/
def extract1Sat (m : Match) : Option PyFloatVal :=
  match pyFloatSatOpt m.grp1 with
  | some w => some w
  | none =>
      match search fallbackRe m.grp0 with
      | some mm => pyFloatSatOpt mm.grp1
      | none => none

/-- extract_first_number (source lines 36 to 47) under the saturating
float model. -/
def extract_first_numberSat (txt : List Char) : List Regex → Option PyFloatVal
  | [] => none
  | p :: ps =>
      match search p txt with
      | none => extract_first_numberSat txt ps
      | some m =>
          match extract1Sat m with
          | some w => some w
          | none => extract_first_numberSat txt ps

/-- Literal Except embedding of extract_first_number under the saturating
float model, keeping the unguarded float() of source line 46 as the one
potential exception point. -/
def extract_first_numberSatE (txt : List Char) : List Regex → Except Unit (Option PyFloatVal)
  | [] => .ok none
  | p :: ps =>
      match search p txt with
      | none => extract_first_numberSatE txt ps
      | some m =>
          match pyFloatSatOpt m.grp1 with
          | some w => .ok (some w)
          | none =>
              match search fallbackRe m.grp0 with
              | some mm =>
                  match pyFloatSatOpt mm.grp1 with
                  | some w => .ok (some w)
                  | none => .error ()
              | none => extract_first_numberSatE txt ps

/-! ### The data model and the two source parsers -/

/-- The PollutantRecord of the spec: the dict each parser returns (source
lines 62 to 70 and 86 to 94), one optional value per field. -/
structure PollutantRecord where
  aqi : Option ℚ
  pm25 : Option ℚ
  pm10 : Option ℚ
  co : Option ℚ
  so2 : Option ℚ
  no2 : Option ℚ
  o3 : Option ℚ
deriving DecidableEq

/-- parse_iqair (source lines 50 to 70), on the visible text already
extracted from the HTML document (the HTML-to-text step is the external
collaborator of spec section 6). -/
def parse_iqair (txt : List Char) : PollutantRecord :=
  { aqi :=
      match search iqairAqiRe txt with
      | some m => (m.grp1.bind pyInt).map (fun n => (n : ℚ))
      | none => none
    pm25 := extract_first_number txt PATTERNS_pm25
    pm10 := extract_first_number txt PATTERNS_pm10
    co := extract_first_number txt PATTERNS_co
    so2 := extract_first_number txt PATTERNS_so2
    no2 := extract_first_number txt PATTERNS_no2
    o3 := extract_first_number txt PATTERNS_o3 }

/-- parse_aqi_in (source lines 72 to 94), on the visible text.  The three
index patterns are chained with Python or, i.e. the first pattern that
matches anywhere wins. -/
def parse_aqi_in (txt : List Char) : PollutantRecord :=
  { aqi :=
      match (search aqiinAqiRe1 txt).orElse
          (fun _ => (search aqiinAqiRe2 txt).orElse (fun _ => search aqiinAqiRe3 txt)) with
      | some m => (m.grp1.bind pyInt).map (fun n => (n : ℚ))
      | none => none
    pm25 := extract_first_number txt PATTERNS_pm25
    pm10 := extract_first_number txt PATTERNS_pm10
    co := extract_first_number txt PATTERNS_co
    so2 := extract_first_number txt PATTERNS_so2
    no2 := extract_first_number txt PATTERNS_no2
    o3 := extract_first_number txt PATTERNS_o3 }

/-! ### summarize_and_append (source lines 96 to 134) -/

/-- Python round() to one decimal, modelled exactly on rationals: ties go to
the even multiple of one tenth (bankers rounding).  On the values this
program averages (integers and their half-integer means) this is exact. -/
def roundHalfEven (q : ℚ) : ℤ :=
  if q - q.floor < 1 / 2 then q.floor
  else if 1 / 2 < q - q.floor then q.floor + 1
  else if q.floor % 2 = 0 then q.floor else q.floor + 1

/-- round(x, 1) of the source (line 101). -/
def pyRound1 (q : ℚ) : ℚ := (roundHalfEven (10 * q) : ℚ) / 10

/-- The list comprehension of source line 100: the index values of the two
records that are actual numbers (present values; the model types values as
rationals, so the isinstance check is presence). -/
def aqiVals (iqair aqi_in : PollutantRecord) : List ℚ :=
  [iqair.aqi, aqi_in.aqi].filterMap id

/-- Source line 101: the averaged index, or the empty cell when no index is
available. -/
def averageAqi (iqair aqi_in : PollutantRecord) : Option ℚ :=
  let vs := aqiVals iqair aqi_in
  if vs = [] then none else some (pyRound1 (vs.sum / (vs.length : ℚ)))

/-- Python `value or ""` used on every per-source cell (source lines 106 to
111): a falsy value (None, but also a present 0) becomes the empty cell. -/
def orEmpty (v : Option ℚ) : Option ℚ :=
  match v with
  | some q => if q = 0 then none else some q
  | none => none

/-- The Output Row dict of source lines 104 to 113, in insertion order. -/
structure OutputRow where
  timestamp : String
  iqair_aqi : Option ℚ
  iqair_pm25 : Option ℚ
  iqair_pm10 : Option ℚ
  aqiin_aqi : Option ℚ
  aqiin_pm25 : Option ℚ
  aqiin_pm10 : Option ℚ
  average_aqi : Option ℚ
deriving DecidableEq

/-- Construction of the Output Row (source lines 100 to 113). -/
def buildRow (now : String) (iqair aqi_in : PollutantRecord) : OutputRow :=
  { timestamp := now
    iqair_aqi := orEmpty iqair.aqi
    iqair_pm25 := orEmpty iqair.pm25
    iqair_pm10 := orEmpty iqair.pm10
    aqiin_aqi := orEmpty aqi_in.aqi
    aqiin_pm25 := orEmpty aqi_in.pm25
    aqiin_pm10 := orEmpty aqi_in.pm10
    average_aqi := averageAqi iqair aqi_in }

/-- One CSV cell as the csv.DictWriter serializes it: empty, a header or
timestamp string, or a numeric value. -/
inductive Cell where
  | empty
  | str (s : String)
  | num (q : ℚ)
deriving DecidableEq

/-- Serialization of one optional value into a cell. -/
def ocell (v : Option ℚ) : Cell :=
  match v with
  | none => .empty
  | some q => .num q

/-- The eight cells of one data row, in fieldnames order (source line 129
takes the dict keys in insertion order). -/
def rowCells (r : OutputRow) : List Cell :=
  [.str r.timestamp, ocell r.iqair_aqi, ocell r.iqair_pm25, ocell r.iqair_pm10,
    ocell r.aqiin_aqi, ocell r.aqiin_pm25, ocell r.aqiin_pm10, ocell r.average_aqi]

/-- The header row written by writeheader (source line 131). -/
def headerCells : List Cell :=
  [.str "Timestamp", .str "IQAir_AQI", .str "IQAir_PM2.5", .str "IQAir_PM10",
    .str "AQIin_AQI", .str "AQIin_PM2.5", .str "AQIin_PM10", .str "Average_AQI"]

/-- The append step of source lines 127 to 132: if the file does not yet
exist (none), it is created with the header first; then exactly one row is
appended. -/
def appendLog (log : Option (List (List Cell))) (row : List Cell) : List (List Cell) :=
  match log with
  | none => [headerCells, row]
  | some rows => rows ++ [row]

/-- summarize_and_append (source lines 96 to 134) as a transformer of the
log-file state; the console printing has no effect on the data. -/
def summarize_and_append (now : String) (iqair aqi_in : PollutantRecord)
    (log : Option (List (List Cell))) : Option (List (List Cell)) :=
  some (appendLog log (rowCells (buildRow now iqair aqi_in)))

/-! ### main (source lines 136 to 158) -/

/-- The all-absent record substituted for a failed source (source lines 148
and 156). -/
def emptyRecord : PollutantRecord := ⟨none, none, none, none, none, none, none⟩

/-- The per-source try/except of main: the guarded fetch-and-parse block
either produces a record or raises, in which case the all-absent record is
substituted for that source only. -/
def resolveSource (r : Except String PollutantRecord) : PollutantRecord :=
  match r with
  | .ok rec => rec
  | .error _ => emptyRecord

/-- main (source lines 136 to 158): the two sources are resolved
independently and the recorder is invoked exactly once.  The network fetch
is the external Transport collaborator of spec section 6, so each source is
given by the outcome of its guarded block. -/
def mainRun (now : String) (ra rb : Except String PollutantRecord)
    (log : Option (List (List Cell))) : Option (List (List Cell)) :=
  summarize_and_append now (resolveSource ra) (resolveSource rb) log

/-- N successive runs of the recorder against an evolving log state. -/
def runsFold (now : String) (inputs : List (PollutantRecord × PollutantRecord))
    (log : Option (List (List Cell))) : Option (List (List Cell)) :=
  inputs.foldl (fun st ab => summarize_and_append now ab.1 ab.2 st) log

/-! ### Dict-level model of the record reads, for the frame claim -/

/-- A Python dict from field names to optional values, as the records are
represented in the source. -/
abbrev RecDict := List (String × Option ℚ)

/-- d.get(k): the stored value, or None when the key is missing. -/
def dget (d : RecDict) (k : String) : Option ℚ :=
  match d.lookup k with
  | some v => v
  | none => none

/-- d.get(k) as a state transformer on the dict, making the (absence of)
mutation explicit: dict.get reads and returns the dict unchanged. -/
def dgetS (d : RecDict) (k : String) : Option ℚ × RecDict := (dget d k, d)

/-- summarize_and_append at the dict level, threading each record through
every read the source performs on it (line 100 reads aqi of both records;
lines 106 to 111 read aqi, pm25, pm10 of each) and returning the final
state of both records next to the row built. -/
def summarizeDict (now : String) (iqair aqi_in : RecDict) :
    OutputRow × RecDict × RecDict :=
  let r1 := dgetS iqair "aqi"
  let r2 := dgetS aqi_in "aqi"
  let vs := [r1.1, r2.1].filterMap id
  let avg := if vs = [] then none else some (pyRound1 (vs.sum / (vs.length : ℚ)))
  let r3 := dgetS r1.2 "aqi"
  let r4 := dgetS r3.2 "pm25"
  let r5 := dgetS r4.2 "pm10"
  let r6 := dgetS r2.2 "aqi"
  let r7 := dgetS r6.2 "pm25"
  let r8 := dgetS r7.2 "pm10"
  (⟨now, orEmpty r3.1, orEmpty r4.1, orEmpty r5.1,
    orEmpty r6.1, orEmpty r7.1, orEmpty r8.1, avg⟩, r5.2, r8.2)

/-- Spec-side restatement of the averaging invariant (spec section 3), for
the refinement claim C1: the arithmetic mean of exactly the non-absent index
values, rounded to one decimal; absent — never zero — when both indices are
absent. -/
def specAverage (oa ob : Option ℚ) : Option ℚ :=
  match oa, ob with
  | none, none => none
  | some x, none => some (pyRound1 x)
  | none, some y => some (pyRound1 y)
  | some x, some y => some (pyRound1 ((x + y) / 2))

/-! ### Matcher helper lemmas -/

theorem mem_mrun_eps {s : List Char} {r : MRes} (h : r ∈ mrun .eps s) : r.consumed = [] := by
  simp only [mrun, List.mem_singleton] at h
  rw [h]

theorem mem_mrun_cls {p : Char → Bool} {s : List Char} {r : MRes}
    (h : r ∈ mrun (.cls p) s) : ∃ c, p c = true ∧ r.consumed = [c] := by
  cases s with
  | nil => simp [mrun] at h
  | cons c t =>
    simp only [mrun] at h
    cases hc : p c with
    | false => rw [hc] at h; simp at h
    | true =>
      rw [hc] at h
      simp only [if_true, List.mem_singleton] at h
      exact ⟨c, hc, by rw [h]⟩

theorem mem_mrun_repCls {p : Char → Bool} {lo : Nat} {hi : Option Nat} {s : List Char} {r : MRes}
    (h : r ∈ mrun (.repCls p lo hi) s) :
    lo ≤ r.consumed.length ∧ ∀ c ∈ r.consumed, p c = true := by
  have hlen : (s.takeWhile p).length ≤ s.length := (s.takeWhile_prefix p).length_le
  cases hi with
  | none =>
    simp only [mrun, List.mem_map, List.mem_range] at h
    obtain ⟨i, hi2, hr⟩ := h
    refine ⟨?_, ?_⟩
    · rw [← hr]
      simp only [List.length_take]
      omega
    · intro c hc
      rw [← hr] at hc
      exact List.mem_takeWhile_imp (List.take_subset _ _ hc)
  | some hb =>
    simp only [mrun, List.mem_map, List.mem_range] at h
    obtain ⟨i, hi2, hr⟩ := h
    refine ⟨?_, ?_⟩
    · rw [← hr]
      simp only [List.length_take]
      omega
    · intro c hc
      rw [← hr] at hc
      exact List.mem_takeWhile_imp (List.take_subset _ _ hc)

theorem mem_mrun_cat {a b : Regex} {s : List Char} {r : MRes} (h : r ∈ mrun (.cat a b) s) :
    ∃ r1 r2, r1 ∈ mrun a s ∧ r2 ∈ mrun b r1.rest ∧ r.consumed = r1.consumed ++ r2.consumed := by
  simp only [mrun, List.mem_flatMap, List.mem_map] at h
  obtain ⟨r1, h1, r2, h2, hr⟩ := h
  exact ⟨r1, r2, h1, h2, by rw [← hr]⟩

theorem mem_mrun_alt {a b : Regex} {s : List Char} {r : MRes} (h : r ∈ mrun (.alt a b) s) :
    r ∈ mrun a s ∨ r ∈ mrun b s := by
  simpa only [mrun, List.mem_append] using h

/-- Every alternative produced by the numeric body consists of a nonempty
digit run, optionally followed by a dot and a second nonempty digit run. -/
theorem mem_mrun_numBody {s : List Char} {r : MRes} (h : r ∈ mrun numBody s) :
    ∃ d1 t, r.consumed = d1 ++ t ∧ d1 ≠ [] ∧ (∀ c ∈ d1, c.isDigit = true) ∧
      (t = [] ∨ ∃ d2, t = '.' :: d2 ∧ d2 ≠ [] ∧ ∀ c ∈ d2, c.isDigit = true) := by
  obtain ⟨r1, r2, h1, h2, hcons⟩ := mem_mrun_cat h
  obtain ⟨hlen1, hdig1⟩ := mem_mrun_repCls h1
  have hne1 : r1.consumed ≠ [] := by
    intro he
    rw [he] at hlen1
    simp at hlen1
  refine ⟨r1.consumed, r2.consumed, hcons, hne1, hdig1, ?_⟩
  rcases mem_mrun_alt h2 with hfrac | heps
  · obtain ⟨rd, rdd, hd, hdd, hcons2⟩ := mem_mrun_cat hfrac
    obtain ⟨c, hc, hdc⟩ := mem_mrun_cls hd
    have hcdot : c = '.' := by
      have := of_decide_eq_true hc
      exact beq_iff_eq.mp hc
    obtain ⟨hlen2, hdig2⟩ := mem_mrun_repCls hdd
    have hne2 : rdd.consumed ≠ [] := by
      intro he
      rw [he] at hlen2
      simp at hlen2
    right
    refine ⟨rdd.consumed, ?_, hne2, hdig2⟩
    rw [hcons2, hdc, hcdot]
    rfl
  · left
    exact mem_mrun_eps heps

/-- A successful search result comes from an alternative of the matcher at
some suffix of the text. -/
theorem search_eq_some {r : Regex} : ∀ {s : List Char} {m : Match}, search r s = some m →
    ∃ s2 res, res ∈ mrun r s2 ∧ m.grp0 = res.consumed ∧ m.grp1 = res.grp1 := by
  intro s
  induction s with
  | nil =>
    intro m h
    simp only [search] at h
    cases hm : mrun r [] with
    | nil => rw [hm] at h; cases h
    | cons res rest =>
      rw [hm] at h
      cases h
      exact ⟨[], res, by rw [hm]; exact List.mem_cons_self res rest, rfl, rfl⟩
  | cons c t ih =>
    intro m h
    simp only [search] at h
    cases hm : mrun r (c :: t) with
    | nil =>
      rw [hm] at h
      exact ih h
    | cons res rest =>
      rw [hm] at h
      cases h
      exact ⟨c :: t, res, by rw [hm]; exact List.mem_cons_self res rest, rfl, rfl⟩

/-! ### Digit-string helper lemmas for the float model -/

theorem takeWhile_all_eq {p : Char → Bool} : ∀ {l : List Char}, (∀ x ∈ l, p x = true) →
    l.takeWhile p = l := by
  intro l
  induction l with
  | nil => intro _; rfl
  | cons a t ih =>
    intro h
    rw [List.takeWhile_cons, if_pos (h a (List.mem_cons_self a t))]
    rw [ih (fun x hx => h x (List.mem_cons_of_mem a hx))]

theorem dropWhile_all_eq {p : Char → Bool} : ∀ {l : List Char}, (∀ x ∈ l, p x = true) →
    l.dropWhile p = [] := by
  intro l
  induction l with
  | nil => intro _; rfl
  | cons a t ih =>
    intro h
    rw [List.dropWhile_cons_of_pos (h a (List.mem_cons_self a t))]
    exact ih (fun x hx => h x (List.mem_cons_of_mem a hx))

theorem takeWhile_append_cons {p : Char → Bool} {c : Char} {r : List Char}
    (hc : p c = false) : ∀ {l : List Char}, (∀ x ∈ l, p x = true) →
    (l ++ c :: r).takeWhile p = l := by
  intro l
  induction l with
  | nil =>
    intro _
    simp only [List.nil_append, List.takeWhile_cons, hc]
    rfl
  | cons a t ih =>
    intro h
    rw [List.cons_append, List.takeWhile_cons, if_pos (h a (List.mem_cons_self a t))]
    rw [ih (fun x hx => h x (List.mem_cons_of_mem a hx))]

theorem dropWhile_append_cons {p : Char → Bool} {c : Char} {r : List Char}
    (hc : p c = false) : ∀ {l : List Char}, (∀ x ∈ l, p x = true) →
    (l ++ c :: r).dropWhile p = c :: r := by
  intro l
  induction l with
  | nil =>
    intro _
    simp only [List.nil_append, List.dropWhile_cons, hc]
    rfl
  | cons a t ih =>
    intro h
    rw [List.cons_append, List.dropWhile_cons_of_pos (h a (List.mem_cons_self a t))]
    exact ih (fun x hx => h x (List.mem_cons_of_mem a hx))

theorem pyFloatCore_digits {d : List Char} (hne : d ≠ []) (hd : ∀ c ∈ d, c.isDigit = true) :
    pyFloatCore d = some ((digitsVal d : ℚ)) := by
  unfold pyFloatCore
  rw [dropWhile_all_eq hd, takeWhile_all_eq hd]
  simp [hne]

theorem pyFloatCore_frac {d1 d2 : List Char} (h1 : d1 ≠ []) (hd1 : ∀ c ∈ d1, c.isDigit = true)
    (h2 : d2 ≠ []) (hd2 : ∀ c ∈ d2, c.isDigit = true) :
    pyFloatCore (d1 ++ '.' :: d2) =
      some ((digitsVal d1 : ℚ) + (digitsVal d2 : ℚ) / (10 : ℚ) ^ d2.length) := by
  unfold pyFloatCore
  rw [dropWhile_append_cons (by decide) hd1, takeWhile_append_cons (by decide) hd1]
  have hcond : ¬(d1 = [] ∧ d2 = []) := fun hx => h1 hx.1
  simp [hcond]
  try exact hd2

theorem pyFloat_cons_digit {c : Char} {t : List Char} (hc : c.isDigit = true) :
    pyFloat (c :: t) = pyFloatCore (c :: t) := by
  have h1 : ¬ c = '+' := by rintro rfl; exact absurd hc (by decide)
  have h2 : ¬ c = '-' := by rintro rfl; exact absurd hc (by decide)
  simp only [pyFloat, if_neg h1, if_neg h2]

theorem pyFloat_numShape {d1 t : List Char} (h1 : d1 ≠ []) (hd1 : ∀ c ∈ d1, c.isDigit = true)
    (ht : t = [] ∨ ∃ d2, t = '.' :: d2 ∧ d2 ≠ [] ∧ ∀ c ∈ d2, c.isDigit = true) :
    ∃ v, pyFloat (d1 ++ t) = some v := by
  cases d1 with
  | nil => exact absurd rfl h1
  | cons c u =>
    have hc : c.isDigit = true := hd1 c (List.mem_cons_self c u)
    rw [List.cons_append, pyFloat_cons_digit hc, ← List.cons_append]
    rcases ht with rfl | ⟨d2, rfl, h2, hd2⟩
    · rw [List.append_nil]
      exact ⟨_, pyFloatCore_digits h1 hd1⟩
    · exact ⟨_, pyFloatCore_frac h1 hd1 h2 hd2⟩

/-- The crux of the no-raise claim: whenever the looser re-scan pattern of
source line 44 matches, its capture is convertible, so the unguarded
float() on source line 46 cannot raise. -/
theorem fallback_search_convertible {g : List Char} {mm : Match}
    (h : search fallbackRe g = some mm) : ∃ v, pyFloatOpt mm.grp1 = some v := by
  obtain ⟨s2, res, hres, _, hg1⟩ := search_eq_some h
  have hres2 : res ∈ (mrun numBody s2).map (fun r => MRes.mk r.consumed r.rest (some r.consumed)) := hres
  simp only [List.mem_map] at hres2
  obtain ⟨r0, hr0, hr0e⟩ := hres2
  obtain ⟨d1, t, hcons, h1, hd1, ht⟩ := mem_mrun_numBody hr0
  rw [hg1, ← hr0e]
  simp only [pyFloatOpt]
  rw [hcons]
  exact pyFloat_numShape h1 hd1 ht

/-- The exception-free Option model agrees with the literal Except model:
no exception escapes extract_first_number. -/
theorem extractE_eq_ok (txt : List Char) : ∀ ps : List Regex,
    extract_first_numberE txt ps = .ok (extract_first_number txt ps) := by
  intro ps
  induction ps with
  | nil => rfl
  | cons p ps ih =>
    simp only [extract_first_numberE, extract_first_number, extract1]
    cases hs : search p txt with
    | none => exact ih
    | some m =>
      cases hv : pyFloatOpt m.grp1 with
      | some v => simp [hv]
      | none =>
        cases hmm : search fallbackRe m.grp0 with
        | none => simp [hv, hmm, ih]
        | some mm =>
          obtain ⟨v, hv2⟩ := fallback_search_convertible hmm
          simp [hv, hmm, hv2]

/-- If no candidate pattern matches anywhere in the text, the extractor
yields absent. -/
theorem extract_none_of_no_match {txt : List Char} : ∀ {ps : List Regex},
    (∀ p ∈ ps, search p txt = none) → extract_first_number txt ps = none := by
  intro ps
  induction ps with
  | nil => intro _; rfl
  | cons p ps ih =>
    intro h
    have hp := h p (List.mem_cons_self p ps)
    simp only [extract_first_number, hp]
    exact ih (fun q hq => h q (List.mem_cons_of_mem p hq))

/-- The saturating group-1 conversion is the satDouble image of the exact
one. -/
theorem pyFloatSatOpt_eq (o : Option (List Char)) :
    pyFloatSatOpt o = (pyFloatOpt o).map satDouble := by
  cases o <;> rfl

/-- The saturating per-match value is the satDouble image of the exact
one. -/
theorem extract1Sat_eq (m : Match) : extract1Sat m = (extract1 m).map satDouble := by
  cases hv : pyFloatOpt m.grp1 with
  | some v =>
    have hs : pyFloatSatOpt m.grp1 = some (satDouble v) := by
      rw [pyFloatSatOpt_eq, hv]
      rfl
    simp [extract1Sat, extract1, hv, hs]
  | none =>
    have hs : pyFloatSatOpt m.grp1 = none := by
      rw [pyFloatSatOpt_eq, hv]
      rfl
    cases hmm : search fallbackRe m.grp0 with
    | some mm => simp [extract1Sat, extract1, hv, hs, hmm, pyFloatSatOpt_eq]
    | none => simp [extract1Sat, extract1, hv, hs, hmm]

/-- The saturating extractor is the satDouble image of the exact one: the
two models make identical control-flow decisions and differ only in the
value carried out. -/
theorem extractSat_map (txt : List Char) : ∀ ps : List Regex,
    extract_first_numberSat txt ps = (extract_first_number txt ps).map satDouble := by
  intro ps
  induction ps with
  | nil => rfl
  | cons p ps ih =>
    simp only [extract_first_numberSat, extract_first_number]
    cases hs : search p txt with
    | none => exact ih
    | some m =>
      cases hv : extract1 m with
      | some v => simp [extract1Sat_eq, hv]
      | none => simp [extract1Sat_eq, hv, ih]

/-- No exception escapes the extractor under the saturating float model
either: the re-scan capture is always convertible (to a possibly infinite
float), so the unguarded float() of line 46 cannot raise. -/
theorem extractSatE_eq_ok (txt : List Char) : ∀ ps : List Regex,
    extract_first_numberSatE txt ps = .ok (extract_first_numberSat txt ps) := by
  intro ps
  induction ps with
  | nil => rfl
  | cons p ps ih =>
    simp only [extract_first_numberSatE, extract_first_numberSat, extract1Sat]
    cases hs : search p txt with
    | none => exact ih
    | some m =>
      cases hv : pyFloatSatOpt m.grp1 with
      | some w => simp [hv]
      | none =>
        cases hmm : search fallbackRe m.grp0 with
        | none => simp [hv, hmm, ih]
        | some mm =>
          obtain ⟨v, hv2⟩ := fallback_search_convertible hmm
          have hs2 : pyFloatSatOpt mm.grp1 = some (satDouble v) := by
            rw [pyFloatSatOpt_eq, hv2]
            rfl
          simp [hv, hmm, hs2]

/-! ### Rounding helper lemmas -/

theorem roundHalfEven_intCast (n : ℤ) : roundHalfEven ((n : ℚ)) = n := by
  unfold roundHalfEven
  have hf : ((n : ℚ)).floor = n := rfl
  rw [hf, sub_self]
  norm_num

theorem pyRound1_int (n : ℤ) : pyRound1 ((n : ℚ)) = (n : ℚ) := by
  unfold pyRound1
  have h10 : (10 : ℚ) * (n : ℚ) = ((10 * n : ℤ) : ℚ) := by push_cast; ring
  rw [h10, roundHalfEven_intCast]
  push_cast
  ring

theorem pyRound1_halfInt (m : ℤ) : pyRound1 ((m : ℚ) / 2) = (m : ℚ) / 2 := by
  unfold pyRound1
  have h10 : (10 : ℚ) * ((m : ℚ) / 2) = ((5 * m : ℤ) : ℚ) := by push_cast; ring
  rw [h10, roundHalfEven_intCast]
  push_cast
  ring

/-- The coded averaging expression (filter, sum, divide by count, round)
agrees with the spec-side case analysis on presence. -/
theorem averageAqi_eq_spec (a b : PollutantRecord) :
    averageAqi a b = specAverage a.aqi b.aqi := by
  unfold averageAqi aqiVals specAverage
  cases ha : a.aqi with
  | none =>
    cases hb : b.aqi with
    | none => simp
    | some y => simp
  | some x =>
    cases hb : b.aqi with
    | none => simp
    | some y => simp

/-- Appending N runs on top of an existing log file adds exactly the N data
rows, in order. -/
theorem runsFold_some (now : String) : ∀ (inputs : List (PollutantRecord × PollutantRecord))
    (rows : List (List Cell)),
    runsFold now inputs (some rows) =
      some (rows ++ inputs.map (fun ab => rowCells (buildRow now ab.1 ab.2))) := by
  intro inputs
  induction inputs with
  | nil => intro rows; simp [runsFold]
  | cons ab rest ih =>
    intro rows
    show runsFold now rest (summarize_and_append now ab.1 ab.2 (some rows)) = _
    rw [show summarize_and_append now ab.1 ab.2 (some rows) =
      some (rows ++ [rowCells (buildRow now ab.1 ab.2)]) from rfl]
    rw [ih]
    simp

/-! ### The claims -/

/-- C1: for every pair of source records, the averaged index of the Output
Row equals the arithmetic mean of exactly the non-absent index values,
rounded to one decimal place; (72, 88) gives 80.0 and (72, absent) gives
72.0; when both indices are absent the averaged field is absent, never
zero. -/
theorem average_matches_spec (now : String) (a b : PollutantRecord) :
    (buildRow now a b).average_aqi = specAverage a.aqi b.aqi ∧
    (buildRow now (⟨some 72, none, none, none, none, none, none⟩ : PollutantRecord)
      (⟨some 88, none, none, none, none, none, none⟩ : PollutantRecord)).average_aqi = some 80 ∧
    (buildRow now (⟨some 72, none, none, none, none, none, none⟩ : PollutantRecord)
      emptyRecord).average_aqi = some 72 ∧
    (buildRow now emptyRecord emptyRecord).average_aqi = none := by
  refine ⟨averageAqi_eq_spec a b, ?_, ?_, ?_⟩
  · show averageAqi (⟨some 72, none, none, none, none, none, none⟩ : PollutantRecord)
        (⟨some 88, none, none, none, none, none, none⟩ : PollutantRecord) = some 80
    decide
  · show averageAqi (⟨some 72, none, none, none, none, none, none⟩ : PollutantRecord)
        emptyRecord = some 72
    decide
  · show averageAqi emptyRecord emptyRecord = none
    decide

/-- C2: when the text matches both the first and the second candidate
pattern, the extractor returns the value embedded in the first pattern's
match (first-match-wins by pattern order), not the value of any later
pattern. -/
theorem first_pattern_priority (txt : List Char) (p0 p1 : Regex) (ps : List Regex)
    (m m1 : Match) (v : ℚ) (h0 : search p0 txt = some m) (h1 : search p1 txt = some m1)
    (hv : extract1 m = some v) :
    extract_first_number txt (p0 :: p1 :: ps) = some v := by
  simp only [extract_first_number, h0, hv]

/-- Witness for C2: both pm25 patterns match, and the value of the first
one (7, not 9) is returned. -/
theorem first_pattern_priority_witness :
    extract_first_number ("PM2.5: 7 PM25 9").data [pat_pm25_1, pat_pm25_2] = some 7 :=
  first_pattern_priority ("PM2.5: 7 PM25 9").data pat_pm25_1 pat_pm25_2 []
    ⟨("PM2.5: 7").data, some (("7").data)⟩ ⟨("PM25 9").data, some (("9").data)⟩ 7
    (by decide) (by decide) (by decide)

/-- C3 counterexample: the extractor does not always return a finite float.
A 309-digit capture — matched by the program's own bare numeric group — is
convertible by CPython float() to the non-finite inf (no exception), so at
this input the extractor returns neither a finite float nor absent. -/
theorem nonfinite_float_counterexample :
    extract_first_numberSat (List.replicate 309 ('9')) [numGrp] = some PyFloatVal.inf ∧
    extract_first_numberSat (List.replicate 309 ('9')) [numGrp] ≠ none ∧
    ∀ q : ℚ, extract_first_numberSat (List.replicate 309 ('9')) [numGrp] ≠
      some (PyFloatVal.fin q) := by
  have h : extract_first_numberSat (List.replicate 309 ('9')) [numGrp] =
      some PyFloatVal.inf := by decide
  refine ⟨h, ?_, ?_⟩
  · rw [h]
    exact Option.noConfusion
  · intro q hq
    rw [h] at hq
    simp at hq

/-- C3 as amended: for any text and any candidate pattern list the
extractor returns a float — finite, or a non-finite infinity when a capture
exceeds the double range — or absent, and never raises (the literal
embedding with its one unguarded exception point always returns ok, in the
saturating model and in the exact one); in particular it returns absent
whenever no pattern matches anywhere in the text. -/
theorem extractor_total_amended (txt : List Char) (ps : List Regex) :
    extract_first_numberSatE txt ps = Except.ok (extract_first_numberSat txt ps) ∧
    extract_first_numberE txt ps = Except.ok (extract_first_number txt ps) ∧
    ((∀ p ∈ ps, search p txt = none) → extract_first_numberSat txt ps = none) ∧
    extract_first_numberSat txt ps = (extract_first_number txt ps).map satDouble := by
  refine ⟨extractSatE_eq_ok txt ps, extractE_eq_ok txt ps, ?_, extractSat_map txt ps⟩
  intro h
  rw [extractSat_map, extract_none_of_no_match h]
  rfl

/-- Witness for the amended C3 at a concrete non-matching text. -/
theorem extractor_total_amended_witness :
    extract_first_numberSatE ("zz").data [pat_pm25_1] =
      Except.ok (extract_first_numberSat ("zz").data [pat_pm25_1]) ∧
    extract_first_numberSat ("zz").data [pat_pm25_1] = none :=
  ⟨(extractor_total_amended ("zz").data [pat_pm25_1]).1,
   (extractor_total_amended ("zz").data [pat_pm25_1]).2.2.1 (by decide)⟩

/-- C4: when a pattern matches but its captured group fails numeric
conversion, the extractor re-scans the whole matched span: if the re-scan
matches, its (always convertible) capture is returned; if it does not, the
extractor moves on to the next pattern, and yields absent when no pattern
succeeds. -/
theorem coercion_fallback (txt : List Char) (p : Regex) (ps : List Regex) (m : Match)
    (hm : search p txt = some m) (hfail : pyFloatOpt m.grp1 = none) :
    (∀ mm, search fallbackRe m.grp0 = some mm →
      extract_first_number txt (p :: ps) = pyFloatOpt mm.grp1 ∧
      ∃ v, pyFloatOpt mm.grp1 = some v) ∧
    (search fallbackRe m.grp0 = none →
      extract_first_number txt (p :: ps) = extract_first_number txt ps) ∧
    (search fallbackRe m.grp0 = none → (∀ q ∈ ps, search q txt = none) →
      extract_first_number txt (p :: ps) = none) := by
  refine ⟨?_, ?_, ?_⟩
  · intro mm hmm
    obtain ⟨v, hv⟩ := fallback_search_convertible hmm
    refine ⟨?_, v, hv⟩
    simp only [extract_first_number, extract1, hm, hfail, hmm, hv]
  · intro hmm
    simp only [extract_first_number, extract1, hm, hfail, hmm]
  · intro hmm hnone
    simp only [extract_first_number, extract1, hm, hfail, hmm]
    exact extract_none_of_no_match hnone

/-- Witness for C4: a capture that fails conversion with a recoverable span
(value 7 recovered), and one with no digits at all (absent, no error). -/
theorem coercion_fallback_witness :
    extract_first_number ("x7").data [Regex.grp (litCI "x7")] = some 7 ∧
    extract_first_number ("y").data [Regex.grp (litCI "y")] = none := by
  constructor
  · have h := coercion_fallback ("x7").data (Regex.grp (litCI "x7")) []
      ⟨("x7").data, some (("x7").data)⟩ (by decide) (by decide)
    have h2 := h.1 ⟨("7").data, some (("7").data)⟩ (by decide)
    rw [h2.1]
    decide
  · have h := coercion_fallback ("y").data (Regex.grp (litCI "y")) []
      ⟨("y").data, some (("y").data)⟩ (by decide) (by decide)
    rw [h.2.1 (by decide)]
    rfl

/-- C5 counterexample: the Output Row does not always contain the
successful source's real values.  With source A failing and source B
succeeding with a present index 0 (reachable from text "0 US AQI"), the
or-truthiness of source line 109 serializes the real value 0 as the empty
cell. -/
theorem fault_isolation_zero_counterexample :
    resolveSource (Except.ok (⟨some 0, none, none, none, none, none, none⟩ : PollutantRecord)) =
      (⟨some 0, none, none, none, none, none, none⟩ : PollutantRecord) ∧
    (⟨some 0, none, none, none, none, none, none⟩ : PollutantRecord).aqi = some 0 ∧
    mainRun "t" (Except.error "boom")
      (Except.ok (⟨some 0, none, none, none, none, none, none⟩ : PollutantRecord)) none =
      some (appendLog none (rowCells (buildRow "t" emptyRecord
        (⟨some 0, none, none, none, none, none, none⟩ : PollutantRecord)))) ∧
    (buildRow "t" emptyRecord
      (⟨some 0, none, none, none, none, none, none⟩ : PollutantRecord)).aqiin_aqi = none ∧
    ¬ (buildRow "t" emptyRecord
        (⟨some 0, none, none, none, none, none, none⟩ : PollutantRecord)).aqiin_aqi = some 0 := by
  refine ⟨rfl, rfl, rfl, rfl, ?_⟩
  decide

/-- C5 as amended: when one source's guarded fetch-and-parse block raises
and the other succeeds — in either orientation — the failing source is
replaced by the all-absent record, the run is not aborted, the successful
record is unaffected, the recorder is invoked exactly once (one row
appended), and the Output Row carries the successful source's values mapped
through the or-empty serialization (a present nonzero value appears as
itself; a present zero serializes empty, as the counterexample forces),
with the averaged index equal to that source's index alone. -/
theorem fault_isolation_amended (now e : String) (rec : PollutantRecord)
    (log : Option (List (List Cell))) :
    (resolveSource (Except.error e) = emptyRecord ∧
     resolveSource (Except.ok rec) = rec ∧
     emptyRecord.aqi = none ∧ emptyRecord.pm25 = none ∧ emptyRecord.pm10 = none ∧
     emptyRecord.co = none ∧ emptyRecord.so2 = none ∧ emptyRecord.no2 = none ∧
     emptyRecord.o3 = none) ∧
    (mainRun now (Except.error e) (Except.ok rec) log =
       some (appendLog log (rowCells (buildRow now emptyRecord rec))) ∧
     (buildRow now emptyRecord rec).iqair_aqi = none ∧
     (buildRow now emptyRecord rec).iqair_pm25 = none ∧
     (buildRow now emptyRecord rec).iqair_pm10 = none ∧
     (buildRow now emptyRecord rec).aqiin_aqi = orEmpty rec.aqi ∧
     (buildRow now emptyRecord rec).aqiin_pm25 = orEmpty rec.pm25 ∧
     (buildRow now emptyRecord rec).aqiin_pm10 = orEmpty rec.pm10 ∧
     (∀ q : ℚ, rec.aqi = some q → ¬ q = 0 →
       (buildRow now emptyRecord rec).aqiin_aqi = some q) ∧
     (∀ n : ℤ, rec.aqi = some ((n : ℚ)) →
       (buildRow now emptyRecord rec).average_aqi = some ((n : ℚ))) ∧
     (rec.aqi = none → (buildRow now emptyRecord rec).average_aqi = none)) ∧
    (mainRun now (Except.ok rec) (Except.error e) log =
       some (appendLog log (rowCells (buildRow now rec emptyRecord))) ∧
     (buildRow now rec emptyRecord).aqiin_aqi = none ∧
     (buildRow now rec emptyRecord).aqiin_pm25 = none ∧
     (buildRow now rec emptyRecord).aqiin_pm10 = none ∧
     (buildRow now rec emptyRecord).iqair_aqi = orEmpty rec.aqi ∧
     (buildRow now rec emptyRecord).iqair_pm25 = orEmpty rec.pm25 ∧
     (buildRow now rec emptyRecord).iqair_pm10 = orEmpty rec.pm10 ∧
     (∀ q : ℚ, rec.aqi = some q → ¬ q = 0 →
       (buildRow now rec emptyRecord).iqair_aqi = some q) ∧
     (∀ n : ℤ, rec.aqi = some ((n : ℚ)) →
       (buildRow now rec emptyRecord).average_aqi = some ((n : ℚ))) ∧
     (rec.aqi = none → (buildRow now rec emptyRecord).average_aqi = none)) := by
  refine ⟨⟨rfl, rfl, rfl, rfl, rfl, rfl, rfl, rfl, rfl⟩,
    ⟨rfl, rfl, rfl, rfl, rfl, rfl, rfl, ?_, ?_, ?_⟩,
    ⟨rfl, rfl, rfl, rfl, rfl, rfl, rfl, ?_, ?_, ?_⟩⟩
  · intro q hq hq0
    show orEmpty rec.aqi = some q
    rw [hq]
    simp [orEmpty, hq0]
  · intro n hn
    show averageAqi emptyRecord rec = _
    rw [averageAqi_eq_spec, show emptyRecord.aqi = (none : Option ℚ) from rfl, hn]
    show some (pyRound1 ((n : ℚ))) = _
    rw [pyRound1_int]
  · intro hn
    show averageAqi emptyRecord rec = _
    rw [averageAqi_eq_spec, show emptyRecord.aqi = (none : Option ℚ) from rfl, hn]
    rfl
  · intro q hq hq0
    show orEmpty rec.aqi = some q
    rw [hq]
    simp [orEmpty, hq0]
  · intro n hn
    show averageAqi rec emptyRecord = _
    rw [averageAqi_eq_spec, hn, show emptyRecord.aqi = (none : Option ℚ) from rfl]
    show some (pyRound1 ((n : ℚ))) = _
    rw [pyRound1_int]
  · intro hn
    show averageAqi rec emptyRecord = _
    rw [averageAqi_eq_spec, hn, show emptyRecord.aqi = (none : Option ℚ) from rfl]
    rfl

/-- Witness for the amended C5: a failing source and a succeeding source
with nonzero index 90, in both orientations — the surviving cell carries
90 and the average is 90. -/
theorem fault_isolation_amended_witness :
    (buildRow "t" emptyRecord
      (⟨some ((90 : ℤ) : ℚ), some 5, none, none, none, none, none⟩ : PollutantRecord)).aqiin_aqi =
      some ((90 : ℤ) : ℚ) ∧
    (buildRow "t" emptyRecord
      (⟨some ((90 : ℤ) : ℚ), some 5, none, none, none, none, none⟩ : PollutantRecord)).average_aqi =
      some ((90 : ℤ) : ℚ) ∧
    (buildRow "t" (⟨some ((90 : ℤ) : ℚ), some 5, none, none, none, none, none⟩ : PollutantRecord)
      emptyRecord).average_aqi = some ((90 : ℤ) : ℚ) := by
  obtain ⟨-, hA, hB⟩ := fault_isolation_amended "t" "boom"
    (⟨some ((90 : ℤ) : ℚ), some 5, none, none, none, none, none⟩ : PollutantRecord) none
  obtain ⟨-, -, -, -, -, -, -, hcell, havg, -⟩ := hA
  obtain ⟨-, -, -, -, -, -, -, -, havg2, -⟩ := hB
  exact ⟨hcell ((90 : ℤ) : ℚ) rfl (by norm_num), havg 90 rfl, havg2 90 rfl⟩

/-- C6: N recorder invocations against a log path that starts absent yield
exactly one header row followed by the N data rows in order; header and
every data row have 8 columns in the documented order; the header is
written only on the run that finds no file, and each invocation appends
exactly one row. -/
theorem log_append_shape (now : String) (inputs : List (PollutantRecord × PollutantRecord))
    (h : inputs ≠ []) :
    runsFold now inputs none =
      some (headerCells :: inputs.map (fun ab => rowCells (buildRow now ab.1 ab.2))) ∧
    headerCells.length = 8 ∧
    (∀ r : OutputRow, (rowCells r).length = 8) ∧
    (∀ row, appendLog none row = [headerCells, row]) ∧
    (∀ rows row, appendLog (some rows) row = rows ++ [row]) := by
  refine ⟨?_, rfl, fun r => rfl, fun row => rfl, fun rows row => rfl⟩
  cases inputs with
  | nil => exact absurd rfl h
  | cons ab rest =>
    show runsFold now rest (summarize_and_append now ab.1 ab.2 none) = _
    rw [show summarize_and_append now ab.1 ab.2 none =
      some ([headerCells, rowCells (buildRow now ab.1 ab.2)]) from rfl]
    rw [runsFold_some]
    simp

/-- Witness for C6 with a single run. -/
theorem log_append_shape_witness :
    runsFold "t" [(emptyRecord, emptyRecord)] none =
      some (headerCells ::
        [(emptyRecord, emptyRecord)].map (fun ab => rowCells (buildRow "t" ab.1 ab.2))) :=
  (log_append_shape "t" [(emptyRecord, emptyRecord)] (by decide)).1

/-- C7 counterexample: a present index value of 0 serializes as the empty
cell (Python or-truthiness on source line 106), not as the value itself, so
it is not true that only absent values serialize as empty. -/
theorem present_zero_serializes_empty :
    (⟨some 0, none, none, none, none, none, none⟩ : PollutantRecord).aqi = some 0 ∧
    (buildRow "t" (⟨some 0, none, none, none, none, none, none⟩ : PollutantRecord)
      emptyRecord).iqair_aqi = none ∧
    ¬ (buildRow "t" (⟨some 0, none, none, none, none, none, none⟩ : PollutantRecord)
        emptyRecord).iqair_aqi =
      (⟨some 0, none, none, none, none, none, none⟩ : PollutantRecord).aqi := by
  refine ⟨rfl, rfl, ?_⟩
  decide

/-- C7 as amended: each per-source column is the or-empty image of the
record field — a present nonzero value serializes as itself, while absent
values and present zero values serialize as empty cells. -/
theorem serialization_mapping_amended (now : String) (a b : PollutantRecord) :
    (buildRow now a b).iqair_aqi = orEmpty a.aqi ∧
    (buildRow now a b).iqair_pm25 = orEmpty a.pm25 ∧
    (buildRow now a b).iqair_pm10 = orEmpty a.pm10 ∧
    (buildRow now a b).aqiin_aqi = orEmpty b.aqi ∧
    (buildRow now a b).aqiin_pm25 = orEmpty b.pm25 ∧
    (buildRow now a b).aqiin_pm10 = orEmpty b.pm10 ∧
    orEmpty none = none ∧ orEmpty (some 0) = none ∧
    (∀ q : ℚ, q ≠ 0 → orEmpty (some q) = some q) := by
  refine ⟨rfl, rfl, rfl, rfl, rfl, rfl, rfl, by decide, ?_⟩
  intro q hq
  simp [orEmpty, hq]

/-- Witness for the amended C7 at a present nonzero value. -/
theorem serialization_mapping_amended_witness :
    (buildRow "t" (⟨none, some 5, none, none, none, none, none⟩ : PollutantRecord)
      emptyRecord).iqair_pm25 = orEmpty (some 5) ∧ orEmpty (some 5) = some 5 :=
  ⟨(serialization_mapping_amended "t"
      (⟨none, some 5, none, none, none, none, none⟩ : PollutantRecord) emptyRecord).2.1,
   (serialization_mapping_amended "t"
      (⟨none, some 5, none, none, none, none, none⟩ : PollutantRecord)
      emptyRecord).2.2.2.2.2.2.2.2 5 (by norm_num)⟩

/-- C8: the end-to-end example — source A text "PM2.5: 45.2 ... 80 US AQI"
and source B text "Live AQI: 90 ... PM 2.5 50" produce Index A 80, PM2.5 A
45.2, Index B 90, PM2.5 B 50 and averaged index 85.0. -/
theorem end_to_end_example :
    (parse_iqair ("PM2.5: 45.2 80 US AQI").data).aqi = some 80 ∧
    (parse_iqair ("PM2.5: 45.2 80 US AQI").data).pm25 = some (226 / 5) ∧
    (parse_aqi_in ("Live AQI: 90 PM 2.5 50").data).aqi = some 90 ∧
    (parse_aqi_in ("Live AQI: 90 PM 2.5 50").data).pm25 = some 50 ∧
    (buildRow "t" (parse_iqair ("PM2.5: 45.2 80 US AQI").data)
      (parse_aqi_in ("Live AQI: 90 PM 2.5 50").data)).iqair_aqi = some 80 ∧
    (buildRow "t" (parse_iqair ("PM2.5: 45.2 80 US AQI").data)
      (parse_aqi_in ("Live AQI: 90 PM 2.5 50").data)).iqair_pm25 = some (226 / 5) ∧
    (buildRow "t" (parse_iqair ("PM2.5: 45.2 80 US AQI").data)
      (parse_aqi_in ("Live AQI: 90 PM 2.5 50").data)).aqiin_aqi = some 90 ∧
    (buildRow "t" (parse_iqair ("PM2.5: 45.2 80 US AQI").data)
      (parse_aqi_in ("Live AQI: 90 PM 2.5 50").data)).aqiin_pm25 = some 50 ∧
    (buildRow "t" (parse_iqair ("PM2.5: 45.2 80 US AQI").data)
      (parse_aqi_in ("Live AQI: 90 PM 2.5 50").data)).average_aqi = some 85 := by
  decide

/-- C9: the aggregator only reads the two input records; threading the
dicts through every read the source performs leaves both unchanged. -/
theorem record_frame_preserved (now : String) (a b : RecDict) :
    (summarizeDict now a b).2.1 = a ∧ (summarizeDict now a b).2.2 = b :=
  ⟨rfl, rfl⟩

/-- C10: with at least one present (integer) index value, the averaged
index lies between the minimum and the maximum of the present index values
inclusive — rounding to one decimal never moves the mean of one or two
integer indices outside that range. -/
theorem average_within_bounds (now : String) (a b : PollutantRecord) (x y : ℤ) :
    (a.aqi = some ((x : ℚ)) → b.aqi = some ((y : ℚ)) →
      ∃ q : ℚ, (buildRow now a b).average_aqi = some q ∧
        min ((x : ℚ)) ((y : ℚ)) ≤ q ∧ q ≤ max ((x : ℚ)) ((y : ℚ))) ∧
    (a.aqi = some ((x : ℚ)) → b.aqi = none →
      ∃ q : ℚ, (buildRow now a b).average_aqi = some q ∧ (x : ℚ) ≤ q ∧ q ≤ (x : ℚ)) ∧
    (a.aqi = none → b.aqi = some ((y : ℚ)) →
      ∃ q : ℚ, (buildRow now a b).average_aqi = some q ∧ (y : ℚ) ≤ q ∧ q ≤ (y : ℚ)) := by
  have hrow : (buildRow now a b).average_aqi = specAverage a.aqi b.aqi :=
    averageAqi_eq_spec a b
  refine ⟨?_, ?_, ?_⟩
  · intro ha hb
    refine ⟨((x + y : ℤ) : ℚ) / 2, ?_, ?_, ?_⟩
    · rw [hrow, ha, hb]
      show some (pyRound1 (((x : ℚ) + (y : ℚ)) / 2)) = _
      rw [show (x : ℚ) + (y : ℚ) = ((x + y : ℤ) : ℚ) by push_cast; ring]
      rw [pyRound1_halfInt]
    · push_cast
      rcases le_total ((x : ℚ)) ((y : ℚ)) with hle | hle
      · rw [min_eq_left hle]; linarith
      · rw [min_eq_right hle]; linarith
    · push_cast
      rcases le_total ((x : ℚ)) ((y : ℚ)) with hle | hle
      · rw [max_eq_right hle]; linarith
      · rw [max_eq_left hle]; linarith
  · intro ha hb
    refine ⟨((x : ℚ)), ?_, le_refl _, le_refl _⟩
    rw [hrow, ha, hb]
    show some (pyRound1 ((x : ℚ))) = _
    rw [pyRound1_int]
  · intro ha hb
    refine ⟨((y : ℚ)), ?_, le_refl _, le_refl _⟩
    rw [hrow, ha, hb]
    show some (pyRound1 ((y : ℚ))) = _
    rw [pyRound1_int]

/-- Witness for C10 at indices 72 and 88: the averaged 80 lies between. -/
theorem average_within_bounds_witness :
    ∃ q : ℚ, (buildRow "t" (⟨some ((72 : ℤ) : ℚ), none, none, none, none, none, none⟩ : PollutantRecord)
      (⟨some ((88 : ℤ) : ℚ), none, none, none, none, none, none⟩ : PollutantRecord)).average_aqi = some q ∧
      min (((72 : ℤ) : ℚ)) (((88 : ℤ) : ℚ)) ≤ q ∧ q ≤ max (((72 : ℤ) : ℚ)) (((88 : ℤ) : ℚ)) :=
  (average_within_bounds "t"
    (⟨some ((72 : ℤ) : ℚ), none, none, none, none, none, none⟩ : PollutantRecord)
    (⟨some ((88 : ℤ) : ℚ), none, none, none, none, none, none⟩ : PollutantRecord) 72 88).1 rfl rfl

end AqiCompare
